import Mathlib

/-!
Shallow embedding of the SWETA service worker (src/service-worker.js).

The fetch event handler, the background refresh `fetchAndUpdate`, the
activate-time cache cleanup and the scheduler `checkScheduledMessages`
are translated directly from the source.  Responses, requests and the
two-partition cache are modelled as explicit data; the network is a
function from URL to an optional response (`none` = the fetch promise
rejects).  The handler returns both the value passed to `respondWith`
(or the fact that it did not respond) and the store as it stands after
all spawned cache writes have settled.
-/

/-- A response, as the worker observes it: status, status text, the
platform response type (`"error"` for error-type responses), the body
bytes and the content type header. -/
structure SWResponse where
  status : Nat
  statusText : String
  rtype : String
  body : String
  contentType : String
deriving DecidableEq

/-- An inbound request descriptor: `url` is `url.href` (the absolute
URL), `origin` is `url.origin`, plus destination and method. -/
structure SWRequest where
  url : String
  origin : String
  destination : String
  method : String
deriving DecidableEq

/-- The two cache partitions the worker touches: the static partition
(`STATIC_CACHE`) and the dynamic partition (`DYNAMIC_CACHE`), each a
key/value list from request URL to stored response. -/
structure Store where
  static : List (String × SWResponse)
  dynamic : List (String × SWResponse)
deriving DecidableEq

/-- The network: for each URL either a resolved response or `none` when
the fetch promise rejects (network failure). -/
def Network : Type := String → Option SWResponse

/-- Outcome of the fetch event handler: `passthrough` when the listener
returns without calling `respondWith` (browser default handling), and
`respond r` when it calls `event.respondWith` with a promise resolving
to `r` (`respond none` = the promise resolved to `undefined`). -/
inductive HandleResult where
  | passthrough : HandleResult
  | respond : Option SWResponse → HandleResult
deriving DecidableEq

def CACHE_NAME : String := "sweta-v1.0.0"

def STATIC_CACHE : String := "sweta-static-v1.0.0"

def DYNAMIC_CACHE : String := "sweta-dynamic-v1.0.0"

/-- `startsWithL pat l` : does `l` start with `pat`? -/
def startsWithL : List Char → List Char → Bool
  | [], _ => true
  | _ :: _, [] => false
  | p :: ps, c :: cs => p == c && startsWithL ps cs

/-- `includesL pat l` : does `pat` occur as a contiguous run anywhere in
`l`?  This is the semantics of JavaScript `String.prototype.includes`. -/
def includesL (pat : List Char) : List Char → Bool
  | [] => startsWithL pat []
  | c :: cs => startsWithL pat (c :: cs) || includesL pat cs

/-- `strIncludes s pat` embeds `s.includes(pat)` from the source. -/
def strIncludes (s pat : String) : Bool :=
  includesL pat.toList s.toList

/-- `swStartsWith s pat` embeds `s.startsWith(pat)` from the source. -/
def swStartsWith (s pat : String) : Bool :=
  startsWithL pat.toList s.toList

/-- First-match lookup in one partition. -/
def lookupEntry : List (String × SWResponse) → String → Option SWResponse
  | [], _ => none
  | (k, v) :: rest, key => if k == key then some v else lookupEntry rest key

/-- `caches.match(key)` over both partitions (static consulted first). -/
def storeGet (s : Store) (key : String) : Option SWResponse :=
  match lookupEntry s.static key with
  | some r => some r
  | none => lookupEntry s.dynamic key

/-- `caches.open(DYNAMIC_CACHE).then(cache => cache.put(key, r))`:
replaces any prior dynamic entry under `key` with `r`. -/
def dynPut (s : Store) (key : String) (r : SWResponse) : Store :=
  { s with dynamic := (key, r) :: s.dynamic.filter (fun p => p.1 != key) }

/-- The bypass substring tested with `url.href.includes(...)` at line 67. -/
def googleScriptPat : String := "script.google.com"

/-- The fonts allow-list substring tested at line 73. -/
def googleFontsPat : String := "fonts.googleapis.com"

/-- The synthesized offline fallback response built at lines 110-116. -/
def offlineFallback : SWResponse :=
  { status := 503
    statusText := "Service Unavailable"
    rtype := "default"
    body := "Offline - Content not available"
    contentType := "text/plain" }

/-- `fetchAndUpdate` (lines 123-133): background refresh; on a resolved
response with status 200 it writes the response into the dynamic
partition; otherwise (non-200 or rejected fetch) the store is left
unchanged and the error is swallowed. -/
def fetchAndUpdate (net : Network) (req : SWRequest) (s : Store) : Store :=
  match net req.url with
  | some response => if response.status == 200 then dynPut s req.url response else s
  | none => s

/-- The fetch event handler (lines 62-120), translated branch by branch:
bypass for URLs containing `googleScriptPat`; no `respondWith` for
cross-origin URLs outside the fonts allow-list; otherwise cache-first
with background refresh on a hit, and on a miss a network fetch whose
200 non-error responses are written to the dynamic partition, with the
catch branch returning `caches.match('./index.html')` for document
destinations and the synthesized 503 fallback for all others. -/
def handle (selfOrigin : String) (net : Network) (req : SWRequest) (s : Store) :
    HandleResult × Store :=
  if strIncludes req.url googleScriptPat then
    (HandleResult.respond (net req.url), s)
  else if req.origin != selfOrigin && !(strIncludes req.url googleFontsPat) then
    (HandleResult.passthrough, s)
  else
    match storeGet s req.url with
    | some cachedResponse =>
        (HandleResult.respond (some cachedResponse), fetchAndUpdate net req s)
    | none =>
        match net req.url with
        | some response =>
            if response.status != 200 || response.rtype == "error" then
              (HandleResult.respond (some response), s)
            else
              (HandleResult.respond (some response), dynPut s req.url response)
        | none =>
            if req.destination == "document" then
              (HandleResult.respond (storeGet s "./index.html"), s)
            else
              (HandleResult.respond (some offlineFallback), s)

/-- The activate handler (lines 36-55) deletes every cache whose name
starts with `sweta-` and differs from both current partition names;
`remainingCaches` is the list of cache names that survive activation. -/
def remainingCaches (names : List String) : List String :=
  names.filter (fun n =>
    !(swStartsWith n "sweta-" && n != STATIC_CACHE && n != DYNAMIC_CACHE))

def weeklyCheckinMessage : String :=
  "Happy Sunday! Time for your weekly check-in! 🌟"

def morningMessage : String :=
  "Good morning! Time to log your morning activities! ☀️"

def hourlyMessage : String :=
  "Time to log what you did in the last hour! ⏰"

/-- `checkScheduledMessages` (lines 245-271) restricted to its decision
core: from (day-of-week, hours, minutes) to the optional notification
body, mirroring the if/else-if chain of the source. -/
def checkScheduledMessages (day hours minutes : Nat) : Option String :=
  if day = 0 ∧ hours = 12 ∧ minutes = 0 then
    some weeklyCheckinMessage
  else if day ≠ 0 ∧ hours = 8 ∧ minutes = 0 then
    some morningMessage
  else if day ≠ 0 ∧ minutes = 30 then
    if hours = 8 ∨ (9 ≤ hours ∧ hours ≤ 21) then some hourlyMessage else none
  else
    none

/-- Modelled from the spec (section 4.2): the scheduler evaluated as the
four ordered rules the spec states, written from the spec wording, to be
compared with `checkScheduledMessages` from the source. -/
def specEvaluate (day hour minute : Nat) : Option String :=
  if day = 0 ∧ hour = 12 ∧ minute = 0 then
    some weeklyCheckinMessage
  else if day ≠ 0 ∧ hour = 8 ∧ minute = 0 then
    some morningMessage
  else if day ≠ 0 ∧ minute = 30 ∧ (hour = 8 ∨ (9 ≤ hour ∧ hour ≤ 21)) then
    some hourlyMessage
  else
    none

/-! Concrete fixtures used by witnesses and counterexamples. -/

def exOrigin : String := "https://app.test"

def emptyStore : Store := ⟨[], []⟩

def respA : SWResponse := ⟨200, "OK", "basic", "A", "text/html"⟩

def respB : SWResponse := ⟨200, "OK", "basic", "B", "text/html"⟩

def resp204 : SWResponse := ⟨204, "No Content", "basic", "fresh", "text/html"⟩

def resp500 : SWResponse := ⟨500, "Internal Server Error", "basic", "boom", "text/html"⟩

def netNone : Network := fun _ => none

def netOkA : Network := fun _ => some respA

def netOkB : Network := fun _ => some respB

def net204 : Network := fun _ => some resp204

def net500 : Network := fun _ => some resp500

def reqDoc : SWRequest := ⟨"https://app.test/page", "https://app.test", "document", "GET"⟩

def uData : String := "https://app.test/data.json"

def reqData : SWRequest := ⟨uData, "https://app.test", "", "GET"⟩

def storeData : Store := ⟨[], [(uData, respA)]⟩

def uBypassHost : String := "https://script.google.com/macros/s/log"

def reqBypassHost : SWRequest := ⟨uBypassHost, "https://script.google.com", "", "GET"⟩

def storeBypassHost : Store := ⟨[], [(uBypassHost, respA)]⟩

def uBypassQuery : String := "https://app.test/view?next=script.google.com"

def reqBypassQuery : SWRequest := ⟨uBypassQuery, "https://app.test", "", "GET"⟩

def uMiss : String := "https://app.test/new.json"

def reqMiss : SWRequest := ⟨uMiss, "https://app.test", "", "GET"⟩

def cachesEx : List String :=
  ["sweta-static-v0.9.0", "sweta-dynamic-v0.9.0", "sweta-v1.0.0",
   "sweta-static-v1.0.0", "sweta-dynamic-v1.0.0", "other-cache"]

/-! Helper lemmas about the string and store operations. -/

theorem startsWithL_self_append (p rest : List Char) :
    startsWithL p (p ++ rest) = true := by
  induction p with
  | nil => rfl
  | cons c cs ih => simp [startsWithL, ih]

theorem includesL_of_startsWithL (pat s : List Char) (h : startsWithL pat s = true) :
    includesL pat s = true := by
  cases s with
  | nil => simpa [includesL] using h
  | cons c cs => simp [includesL, h]

theorem includesL_middle (pre pat suf : List Char) :
    includesL pat (pre ++ (pat ++ suf)) = true := by
  induction pre with
  | nil =>
      simpa using includesL_of_startsWithL pat (pat ++ suf) (startsWithL_self_append pat suf)
  | cons c cs ih => simp [includesL, ih]

theorem strIncludes_middle (pre pat suf : String) :
    strIncludes (pre ++ pat ++ suf) pat = true := by
  unfold strIncludes
  have h : (pre ++ pat ++ suf).toList = pre.toList ++ (pat.toList ++ suf.toList) := by
    show (pre ++ pat ++ suf).data = pre.data ++ (pat.data ++ suf.data)
    rw [String.data_append, String.data_append, List.append_assoc]
  rw [h]
  exact includesL_middle pre.toList pat.toList suf.toList

theorem lookupEntry_head (k : String) (v : SWResponse) (l : List (String × SWResponse)) :
    lookupEntry ((k, v) :: l) k = some v := by
  simp [lookupEntry]

theorem dynPut_static (s : Store) (k : String) (r : SWResponse) :
    (dynPut s k r).static = s.static := rfl

theorem storeGet_static_none (s : Store) (key : String) (h : storeGet s key = none) :
    lookupEntry s.static key = none := by
  unfold storeGet at h
  cases hst : lookupEntry s.static key with
  | none => rfl
  | some r => rw [hst] at h; exact absurd h (by simp)

theorem storeGet_dynPut (s : Store) (key : String) (r : SWResponse)
    (h : lookupEntry s.static key = none) :
    storeGet (dynPut s key r) key = some r := by
  unfold storeGet
  rw [dynPut_static, h]
  exact lookupEntry_head key r _

theorem fetchAndUpdate_of_200 (net : Network) (req : SWRequest) (s : Store)
    (resp : SWResponse) (hn : net req.url = some resp) (h200 : resp.status = 200) :
    fetchAndUpdate net req s = dynPut s req.url resp := by
  unfold fetchAndUpdate
  rw [hn]
  simp [h200]

theorem fetchAndUpdate_no_write (net : Network) (req : SWRequest) (s : Store)
    (h : ∀ r, net req.url = some r → r.status ≠ 200) :
    fetchAndUpdate net req s = s := by
  unfold fetchAndUpdate
  cases hn : net req.url with
  | none => rfl
  | some r => simp [h r hn]

/-! Helper lemmas about the branches of the fetch handler. -/

theorem handle_bypass (o : String) (net : Network) (req : SWRequest) (s : Store)
    (hb : strIncludes req.url googleScriptPat = true) :
    handle o net req s = (HandleResult.respond (net req.url), s) := by
  unfold handle
  simp [hb]

theorem handle_origin_cond (o : String) (req : SWRequest)
    (ho : req.origin = o ∨ strIncludes req.url googleFontsPat = true) :
    (req.origin != o && !(strIncludes req.url googleFontsPat)) = false := by
  rcases ho with h | h
  · simp [h]
  · simp [h]

theorem handle_hit (o : String) (net : Network) (req : SWRequest) (s : Store)
    (cached : SWResponse)
    (hb : strIncludes req.url googleScriptPat = false)
    (ho : req.origin = o ∨ strIncludes req.url googleFontsPat = true)
    (hs : storeGet s req.url = some cached) :
    handle o net req s = (HandleResult.respond (some cached), fetchAndUpdate net req s) := by
  unfold handle
  rw [hb, handle_origin_cond o req ho]
  simp [hs]

theorem handle_miss_cacheable (o : String) (net : Network) (req : SWRequest) (s : Store)
    (resp : SWResponse)
    (hb : strIncludes req.url googleScriptPat = false)
    (ho : req.origin = o ∨ strIncludes req.url googleFontsPat = true)
    (hs : storeGet s req.url = none)
    (hn : net req.url = some resp)
    (h200 : resp.status = 200)
    (ht : resp.rtype ≠ "error") :
    handle o net req s = (HandleResult.respond (some resp), dynPut s req.url resp) := by
  unfold handle
  rw [hb, handle_origin_cond o req ho]
  simp [hs, hn, h200, ht]

theorem handle_miss_noncacheable (o : String) (net : Network) (req : SWRequest) (s : Store)
    (resp : SWResponse)
    (hb : strIncludes req.url googleScriptPat = false)
    (ho : req.origin = o ∨ strIncludes req.url googleFontsPat = true)
    (hs : storeGet s req.url = none)
    (hn : net req.url = some resp)
    (hbad : resp.status ≠ 200 ∨ resp.rtype = "error") :
    handle o net req s = (HandleResult.respond (some resp), s) := by
  unfold handle
  rw [hb, handle_origin_cond o req ho]
  rcases hbad with h | h
  · simp [hs, hn, h]
  · simp [hs, hn, h]

/-! Claim theorems. -/

/-- C1: the claim fails on the code. At a request whose foreground
network fetch fails, whose destination is a top-level document, and for
which no fallback root document is stored, the catch branch returns the
result of looking up the fallback key, which is absent — so `respondWith`
receives a promise resolving to no response object at all, not the
synthesized 503 plain-text fallback (that branch is reached only for
non-document destinations).  The theorem evaluates the handler at such
an input and exhibits the divergence. -/
theorem c1_document_fallback_missing_yields_no_response :
    reqDoc.destination = "document" ∧
    netNone reqDoc.url = none ∧
    storeGet emptyStore "./index.html" = none ∧
    handle exOrigin netNone reqDoc emptyStore = (HandleResult.respond none, emptyStore) := by
  decide

/-- C2 counterexample: a request whose URL matches the bypass substring
can have an existing Store entry (for instance written through the
CACHE_URLS message handler), yet `handle` returns the network response,
not the cached entry. -/
theorem c2_counterexample :
    storeGet storeBypassHost uBypassHost = some respA ∧
    (handle exOrigin netOkB reqBypassHost storeBypassHost).1 = HandleResult.respond (some respB) ∧
    respB ≠ respA := by
  decide

/-- C2 (amended): for every request that is neither bypassed (URL does
not contain the bypass substring) nor passed through by the origin rule
(same-origin, or on the fonts allow-list), with an existing Store entry,
`handle` returns exactly that cached entry as its response; the network
function is universally quantified, so the response never depends on any
network round-trip and the caller always observes the cached value. -/
theorem c2_amended_hit_returns_cached (o : String) (net : Network) (req : SWRequest)
    (s : Store) (cached : SWResponse)
    (hb : strIncludes req.url googleScriptPat = false)
    (ho : req.origin = o ∨ strIncludes req.url googleFontsPat = true)
    (hs : storeGet s req.url = some cached) :
    (handle o net req s).1 = HandleResult.respond (some cached) := by
  rw [handle_hit o net req s cached hb ho hs]

theorem c2_witness :
    storeGet storeData uData = some respA ∧
    (handle exOrigin netNone reqData storeData).1 = HandleResult.respond (some respA) :=
  ⟨by decide,
   c2_amended_hit_returns_cached exOrigin netNone reqData storeData respA
     (by decide) (Or.inl rfl) (by decide)⟩

/-- C3 counterexample: on a cache hit whose background refresh resolves
with status 204 — a 2xx status — the refresh writes nothing: the store is
returned unchanged and the stale entry, not the fresh body, remains under
the key, because the source tests `response.status === 200` exactly. -/
theorem c3_counterexample :
    storeGet storeData uData = some respA ∧
    net204 uData = some resp204 ∧
    200 ≤ resp204.status ∧ resp204.status ≤ 299 ∧
    handle exOrigin net204 reqData storeData = (HandleResult.respond (some respA), storeData) ∧
    lookupEntry storeData.dynamic uData ≠ some resp204 := by
  decide

/-- C3 (amended): for every cache hit, the background refresh fetch, if
it succeeds with status exactly 200, writes the fresh response into the
dynamic partition replacing any prior entry under that key; if it
resolves with any other status (including other 2xx statuses) it writes
nothing; and a failed (rejected) refresh is swallowed: the caller still
receives the cached entry and the store is unchanged. -/
theorem c3_amended_background_refresh (o : String) (net : Network) (req : SWRequest)
    (s : Store) (cached : SWResponse)
    (hb : strIncludes req.url googleScriptPat = false)
    (ho : req.origin = o ∨ strIncludes req.url googleFontsPat = true)
    (hs : storeGet s req.url = some cached) :
    (∀ resp, net req.url = some resp → resp.status = 200 →
        lookupEntry ((handle o net req s).2).dynamic req.url = some resp) ∧
    (∀ resp, net req.url = some resp → resp.status ≠ 200 →
        handle o net req s = (HandleResult.respond (some cached), s)) ∧
    (net req.url = none → handle o net req s = (HandleResult.respond (some cached), s)) := by
  refine ⟨?_, ?_, ?_⟩
  · intro resp hn h200
    rw [handle_hit o net req s cached hb ho hs]
    rw [fetchAndUpdate_of_200 net req s resp hn h200]
    exact lookupEntry_head req.url resp _
  · intro resp hn hne
    rw [handle_hit o net req s cached hb ho hs]
    rw [fetchAndUpdate_no_write net req s (fun r hr => by rw [hn] at hr; cases hr; exact hne)]
  · intro hn
    rw [handle_hit o net req s cached hb ho hs]
    rw [fetchAndUpdate_no_write net req s (fun r hr => by rw [hn] at hr; cases hr)]

theorem c3_witness :
    storeGet storeData uData = some respA ∧
    lookupEntry ((handle exOrigin netOkB reqData storeData).2).dynamic uData = some respB :=
  ⟨by decide,
   (c3_amended_background_refresh exOrigin netOkB reqData storeData respA
      (by decide) (Or.inl rfl) (by decide)).1 respB rfl rfl⟩

/-- C4: for every request whose URL contains the bypass substring, the
handler forwards the request straight to the network: the result equals
the network response verbatim, the store is returned unchanged (no
write), and the response component is the same for every store (no
read). -/
theorem c4_bypass_no_store_interaction (o : String) (net : Network) (req : SWRequest)
    (s : Store)
    (hb : strIncludes req.url googleScriptPat = true) :
    handle o net req s = (HandleResult.respond (net req.url), s) ∧
    ∀ s2 : Store, (handle o net req s2).1 = (handle o net req s).1 := by
  refine ⟨handle_bypass o net req s hb, ?_⟩
  intro s2
  rw [handle_bypass o net req s hb, handle_bypass o net req s2 hb]

theorem c4_witness :
    handle exOrigin netOkA reqBypassHost emptyStore
      = (HandleResult.respond (netOkA reqBypassHost.url), emptyStore) :=
  (c4_bypass_no_store_interaction exOrigin netOkA reqBypassHost emptyStore (by decide)).1

/-- C5 counterexample: a same-origin GET request whose URL carries the
bypass substring in its query string is bypassed, so its successful 200
network response is returned to the caller but never written to the
Store: afterwards the key is still absent. -/
theorem c5_counterexample :
    reqBypassQuery.origin = exOrigin ∧ reqBypassQuery.method = "GET" ∧
    storeGet emptyStore uBypassQuery = none ∧
    netOkA uBypassQuery = some respA ∧ respA.status = 200 ∧ respA.rtype ≠ "error" ∧
    (handle exOrigin netOkA reqBypassQuery emptyStore).1 = HandleResult.respond (some respA) ∧
    storeGet ((handle exOrigin netOkA reqBypassQuery emptyStore).2) uBypassQuery = none := by
  decide

/-- C5 (amended): for every same-origin GET request whose URL does not
contain the bypass substring, whose key is not in the Store and whose
network fetch succeeds with a cacheable status (200 and not an
error-type response), `handle` returns the network response to the
caller and the same response is afterwards retrievable from the Store
(written to the dynamic partition) under the same key. -/
theorem c5_amended_miss_caches_success (o : String) (net : Network) (req : SWRequest)
    (s : Store) (resp : SWResponse)
    (hb : strIncludes req.url googleScriptPat = false)
    (ho : req.origin = o)
    (_hm : req.method = "GET")
    (hs : storeGet s req.url = none)
    (hn : net req.url = some resp)
    (h200 : resp.status = 200)
    (ht : resp.rtype ≠ "error") :
    (handle o net req s).1 = HandleResult.respond (some resp) ∧
    storeGet ((handle o net req s).2) req.url = some resp := by
  rw [handle_miss_cacheable o net req s resp hb (Or.inl ho) hs hn h200 ht]
  exact ⟨rfl, storeGet_dynPut s req.url resp (storeGet_static_none s req.url hs)⟩

theorem c5_witness :
    storeGet emptyStore uMiss = none ∧
    (handle exOrigin netOkA reqMiss emptyStore).1 = HandleResult.respond (some respA) ∧
    storeGet ((handle exOrigin netOkA reqMiss emptyStore).2) uMiss = some respA :=
  ⟨by decide,
   (c5_amended_miss_caches_success exOrigin netOkA reqMiss emptyStore respA
      (by decide) rfl rfl (by decide) rfl rfl (by decide)).1,
   (c5_amended_miss_caches_success exOrigin netOkA reqMiss emptyStore respA
      (by decide) rfl rfl (by decide) rfl rfl (by decide)).2⟩

/-- C6: for every cache-miss fetch that resolves with a non-cacheable
status (status other than 200, or an error-type response), the handler
returns that response as-is and the store is returned unchanged — no
entry captured from a failure response is ever written. -/
theorem c6_noncacheable_never_stored (o : String) (net : Network) (req : SWRequest)
    (s : Store) (resp : SWResponse)
    (hb : strIncludes req.url googleScriptPat = false)
    (ho : req.origin = o ∨ strIncludes req.url googleFontsPat = true)
    (hs : storeGet s req.url = none)
    (hn : net req.url = some resp)
    (hbad : resp.status ≠ 200 ∨ resp.rtype = "error") :
    handle o net req s = (HandleResult.respond (some resp), s) :=
  handle_miss_noncacheable o net req s resp hb ho hs hn hbad

theorem c6_witness :
    handle exOrigin net500 reqMiss emptyStore
      = (HandleResult.respond (some resp500), emptyStore) :=
  c6_noncacheable_never_stored exOrigin net500 reqMiss emptyStore resp500
    (by decide) (Or.inl rfl) (by decide) rfl (Or.inl (by decide))

/-- C7: the scheduler agrees everywhere with the four ordered rules of
the spec (weekly on day 0 at 12:00; morning on day not 0 at 8:00; hourly
on day not 0 at minute 30 with hour 8 or 9..21; otherwise nothing), and
in particular on the five instants the spec lists, including that day 1
hour 22 minute 30 and day 0 hour 8 minute 0 yield no message. -/
theorem c7_scheduler_four_rules :
    (∀ day hours minutes : Nat,
        checkScheduledMessages day hours minutes = specEvaluate day hours minutes) ∧
    checkScheduledMessages 0 12 0 = some weeklyCheckinMessage ∧
    checkScheduledMessages 1 8 0 = some morningMessage ∧
    checkScheduledMessages 1 14 30 = some hourlyMessage ∧
    checkScheduledMessages 1 22 30 = none ∧
    checkScheduledMessages 0 8 0 = none := by
  refine ⟨?_, by decide, by decide, by decide, by decide, by decide⟩
  intro day hours minutes
  unfold checkScheduledMessages specEvaluate
  split_ifs <;> first | rfl | tauto

/-- C8: activation deletes every cache whose name starts with the
application prefix but carries a tag other than the two current
partition names; afterwards the only surviving application caches are
the current static and dynamic partitions. -/
theorem c8_activation_keeps_only_current_partitions (names : List String) (n : String) :
    (n ∈ names → swStartsWith n "sweta-" = true → n ≠ STATIC_CACHE → n ≠ DYNAMIC_CACHE →
        n ∉ remainingCaches names) ∧
    (n ∈ remainingCaches names → swStartsWith n "sweta-" = true →
        n = STATIC_CACHE ∨ n = DYNAMIC_CACHE) := by
  constructor
  · intro _ hsw hS hD hcontra
    unfold remainingCaches at hcontra
    rcases List.mem_filter.mp hcontra with ⟨_, hp⟩
    simp [hsw, hS, hD] at hp
  · intro hm hsw
    unfold remainingCaches at hm
    rcases List.mem_filter.mp hm with ⟨_, hp⟩
    by_contra hne
    push_neg at hne
    rcases hne with ⟨hS, hD⟩
    simp [hsw, hS, hD] at hp

theorem c8_witness :
    "sweta-static-v0.9.0" ∉ remainingCaches cachesEx :=
  (c8_activation_keeps_only_current_partitions cachesEx "sweta-static-v0.9.0").1
    (by decide) (by decide) (by decide) (by decide)

/-- C9 counterexample: with an entry already cached, a first call whose
background refresh succeeds with a different 200 body replaces the
entry, so an immediately following second call returns a byte-different
response — the two responses are not byte-identical. -/
theorem c9_counterexample :
    storeGet storeData uData = some respA ∧
    (handle exOrigin netOkB reqData storeData).1 = HandleResult.respond (some respA) ∧
    (handle exOrigin netNone reqData ((handle exOrigin netOkB reqData storeData).2)).1
      = HandleResult.respond (some respB) ∧
    respA ≠ respB := by
  decide

/-- C9 (amended): for every already-cached key of a request that is
neither bypassed nor passed through, two successive calls to `handle`
return byte-identical responses — both equal to the cached entry, and
the second response is the same for every network, hence independent of
network availability on the second call — provided the first call's
background refresh does not succeed with status 200 (which would replace
the entry between the calls). -/
theorem c9_amended_idempotent_hit (o : String) (n1 n2 : Network) (req : SWRequest)
    (s : Store) (cached : SWResponse)
    (hb : strIncludes req.url googleScriptPat = false)
    (ho : req.origin = o ∨ strIncludes req.url googleFontsPat = true)
    (hs : storeGet s req.url = some cached)
    (hrefresh : ∀ r, n1 req.url = some r → r.status ≠ 200) :
    (handle o n1 req s).1 = HandleResult.respond (some cached) ∧
    (handle o n2 req ((handle o n1 req s).2)).1 = HandleResult.respond (some cached) := by
  have h1 := handle_hit o n1 req s cached hb ho hs
  have hfu := fetchAndUpdate_no_write n1 req s hrefresh
  constructor
  · rw [h1]
  · rw [h1, hfu]
    rw [handle_hit o n2 req s cached hb ho hs]

theorem c9_witness :
    storeGet storeData uData = some respA ∧
    (handle exOrigin netNone reqData storeData).1 = HandleResult.respond (some respA) ∧
    (handle exOrigin netOkB reqData ((handle exOrigin netNone reqData storeData).2)).1
      = HandleResult.respond (some respA) :=
  ⟨by decide,
   (c9_amended_idempotent_hit exOrigin netNone netOkB reqData storeData respA
      (by decide) (Or.inl rfl) (by decide) (by intro r hr; exact Option.noConfusion hr)).1,
   (c9_amended_idempotent_hit exOrigin netNone netOkB reqData storeData respA
      (by decide) (Or.inl rfl) (by decide) (by intro r hr; exact Option.noConfusion hr)).2⟩

/-- C10: the bypass test is a substring match anywhere in the full URL:
for every URL of the shape pre ++ bypass-substring ++ suf — whatever the
origin, destination and method — the handler forwards directly to the
network with the store untouched; and in particular a same-origin
request carrying the substring inside its query string is bypassed. -/
theorem c10_bypass_matches_substring_anywhere :
    (∀ (o : String) (net : Network) (s : Store) (pre suf origin dest meth : String),
        handle o net ⟨pre ++ googleScriptPat ++ suf, origin, dest, meth⟩ s
          = (HandleResult.respond (net (pre ++ googleScriptPat ++ suf)), s)) ∧
    reqBypassQuery.origin = exOrigin ∧
    handle exOrigin netOkB reqBypassQuery emptyStore
      = (HandleResult.respond (some respB), emptyStore) := by
  refine ⟨?_, rfl, by decide⟩
  intro o net s pre suf origin dest meth
  exact handle_bypass o net ⟨pre ++ googleScriptPat ++ suf, origin, dest, meth⟩ s
    (strIncludes_middle pre googleScriptPat suf)
